import Mathlib

/-
Verification development for the fm-api-gateway request pipeline.

Shallow embedding of the core gateway components, translated from the
Python source:
  - src/gateway/core/user_context.py      (UserContext, to_headers)
  - src/gateway/api/middleware.py         (AuthMiddleware.dispatch and helpers)
  - src/gateway/api/routes.py             (proxy_request)
  - src/gateway/core/circuit_breaker.py   (CircuitBreaker)
  - src/gateway/core/rate_limiter.py      (RateLimiter)
  - src/gateway/infrastructure/redis_client.py (RedisClient error behaviour)

Python dicts are modelled as association lists with exact-key (case
sensitive) lookup/update, matching dict semantics; timestamps and token
counts are rationals; fallible operations return Option/Except values.
-/

/-! ## Python dict operations on string-keyed header maps

`dict(request.headers)` in Starlette yields one entry per header with the
name exactly as it appears in the ASGI scope; the ASGI spec requires
servers to lowercase header names, so inbound request-header keys are
lowercase.  `dict.pop`, `dict.__setitem__` and `dict.update` are exact,
case sensitive key operations; a freshly inserted key is appended in
insertion order. -/

def dictPop (d : List (String × String)) (k : String) : List (String × String) :=
  d.filter (fun p => p.1 ≠ k)

def dictInsert (d : List (String × String)) (k v : String) : List (String × String) :=
  if d.any (fun p => p.1 = k) then
    d.map (fun p => if p.1 = k then (k, v) else p)
  else
    d ++ [(k, v)]

def dictUpdate (d : List (String × String)) (kvs : List (String × String)) : List (String × String) :=
  kvs.foldl (fun acc p => dictInsert acc p.1 p.2) d

/-- Python `str.lower()` on one character (ASCII case mapping, which
covers every header name involved). -/
def lowerChar (c : Char) : Char :=
  if 65 ≤ c.toNat ∧ c.toNat ≤ 90 then Char.ofNat (c.toNat + 32) else c

/-- Python `str.lower()`. -/
def lowerStr (s : String) : String := String.mk (s.data.map lowerChar)

/-- Python `str.startswith(p)`. -/
def strStartsWith (s p : String) : Bool := List.isPrefixOf p.data s.data

/-- `request.headers.get(name)`: Starlette header lookup is case
insensitive. -/
def headerGet (d : List (String × String)) (k : String) : Option String :=
  (d.find? (fun p => lowerStr p.1 = lowerStr k)).map (fun p => p.2)

/-! ## UserContext (src/gateway/core/user_context.py) -/

/-- `json.dumps` on a plain string (no characters needing escapes, which
holds for the role names used here). -/
def jsonStr (s : String) : String := "\"" ++ s ++ "\""

/-- `json.dumps` on a list of strings: elements separated by a comma and a
space, as the default Python separators produce. -/
def jsonStrList : List String → String
  | [] => "[]"
  | x :: xs => "[" ++ jsonStr x ++ xs.foldl (fun acc r => acc ++ ", " ++ jsonStr r) "" ++ "]"

/-- `str(bool).lower()` in Python. -/
def pyBoolStr (b : Bool) : String := if b then "true" else "false"

structure UserContext where
  user_id : String
  email : String
  roles : List String
  email_verified : Bool
deriving DecidableEq, Repr

/-- `UserContext.to_headers`: the four identity headers, with the exact
mixed-case names used in the source. -/
def UserContext.to_headers (u : UserContext) : List (String × String) :=
  [("X-User-ID", u.user_id),
   ("X-User-Email", u.email),
   ("X-User-Roles", jsonStrList u.roles),
   ("X-Email-Verified", pyBoolStr u.email_verified)]

/-! ## AuthMiddleware (src/gateway/api/middleware.py) -/

/-- `AuthMiddleware._is_public_endpoint`: the configured public path list. -/
def publicPaths : List String :=
  ["/health",
   "/api/v1/auth/login",
   "/api/v1/auth/dev-login",
   "/api/v1/auth/register",
   "/api/v1/auth/dev-register",
   "/api/v1/auth/refresh"]

def isPublicEndpoint (path : String) : Bool :=
  publicPaths.any (fun p => strStartsWith path p)

/-- Helper for `pySplit`: walk the characters, accumulating the current
word reversed. -/
def pySplitAux : List Char → List Char → List String
  | [], cur => if cur.isEmpty then [] else [String.mk cur.reverse]
  | c :: rest, cur =>
      if c.isWhitespace then
        (if cur.isEmpty then pySplitAux rest []
         else String.mk cur.reverse :: pySplitAux rest [])
      else pySplitAux rest (c :: cur)

/-- Python `str.split()` with no argument: split on whitespace runs and
discard empty pieces. -/
def pySplit (s : String) : List String := pySplitAux s.data []

/-- `AuthMiddleware._extract_bearer_token`: exactly two whitespace-separated
parts, the first of which lowercases to "bearer"; otherwise ValueError. -/
def extractBearerToken (h : String) : Except String String :=
  match pySplit h with
  | [scheme, token] =>
      if lowerStr scheme = "bearer" then Except.ok token
      else Except.error "Authorization scheme must be Bearer"
  | _ => Except.error "Authorization header must be Bearer token"

/-- Result of `auth_provider.validate_token`: a UserContext, a ValueError
(the only exception type the middleware catches), or any other raised
exception (for example the NotImplementedError raised by the stub provider). -/
inductive ValidateResult where
  | ok (u : UserContext)
  | authError (msg : String)
  | otherFault (msg : String)
deriving DecidableEq

/-- `SupabaseProvider.validate_token` (stub): unconditionally raises
NotImplementedError. -/
def supabaseValidateToken (_token : String) : ValidateResult :=
  ValidateResult.otherFault "Supabase provider is not yet implemented. Use fm-auth-service for now."

/-- Outcome of `AuthMiddleware.dispatch`: an error response produced by the
middleware itself, forwarding with `request.state.user_headers` set,
forwarding on a public path (state untouched), or an exception escaping
`dispatch` uncaught. -/
inductive DispatchOutcome where
  | response (statusCode : Nat) (errorKind : String)
  | forward (userHeaders : List (String × String))
  | forwardPublic
  | unhandled (msg : String)
deriving DecidableEq

/-- `AuthMiddleware.dispatch`.  Note `_strip_client_user_headers` mutates
nothing (it builds a list of reserved-prefix names purely for logging), so
it has no effect on the outcome and no counterpart here beyond the
definition `strippedHeaderNames` below.  An empty Authorization header
value is falsy in Python and takes the missing-header branch. -/
def dispatch (authRequired : Bool) (anon : UserContext)
    (validate : String → ValidateResult) (path : String)
    (authHeader : Option String) : DispatchOutcome :=
  if isPublicEndpoint path then
    DispatchOutcome.forwardPublic
  else
    match authHeader with
    | none =>
        if authRequired then DispatchOutcome.response 401 "missing_authorization"
        else DispatchOutcome.forward anon.to_headers
    | some h =>
        if h = "" then
          (if authRequired then DispatchOutcome.response 401 "missing_authorization"
           else DispatchOutcome.forward anon.to_headers)
        else
          match extractBearerToken h with
          | Except.error _ => DispatchOutcome.response 401 "invalid_token"
          | Except.ok token =>
              match validate token with
              | ValidateResult.ok u => DispatchOutcome.forward u.to_headers
              | ValidateResult.authError _ => DispatchOutcome.response 401 "invalid_token"
              | ValidateResult.otherFault m => DispatchOutcome.unhandled m

/-- The list `headers_to_remove` computed by
`AuthMiddleware._strip_client_user_headers` (used only for logging; the
request headers themselves are never modified). -/
def strippedHeaderNames (headers : List (String × String)) : List String :=
  (headers.map (fun p => p.1)).filter (fun k => strStartsWith (lowerStr k) "x-user-")

/-- `AuthMiddleware._create_anonymous_user` fallback defaults (no settings). -/
def fallbackAnonymousUser : UserContext :=
  { user_id := "anonymous", email := "anonymous@example.com",
    roles := ["admin"], email_verified := true }

/-! ## proxy_request forwarding (src/gateway/api/routes.py) -/

/-- The hop-by-hop header names popped from the forwarded header dict. -/
def hopByHopHeaders : List String :=
  ["connection", "keep-alive", "proxy-authenticate", "proxy-authorization",
   "te", "trailers", "transfer-encoding", "upgrade", "host"]

/-- The header dict `proxy_request` hands to the backend call: start from
`dict(request.headers)`, pop the hop-by-hop names, then
`headers.update(request.state.user_headers)` when the middleware set them
(`none` on public paths, where the middleware never touched the state). -/
def forwardedHeaders (reqHeaders : List (String × String))
    (userHeaders : Option (List (String × String))) : List (String × String) :=
  let base := hopByHopHeaders.foldl dictPop reqHeaders
  match userHeaders with
  | some uh => dictUpdate base uh
  | none => base

/-- End-to-end header set forwarded for one request: run the middleware on
the request path and Authorization header, then build the proxy header
dict.  `none` when the middleware answered the request itself (401) or the
validator fault escaped. -/
def gatewayForwardHeaders (authRequired : Bool) (anon : UserContext)
    (validate : String → ValidateResult) (path : String)
    (reqHeaders : List (String × String)) : Option (List (String × String)) :=
  match dispatch authRequired anon validate path (headerGet reqHeaders "Authorization") with
  | DispatchOutcome.forward uh => some (forwardedHeaders reqHeaders (some uh))
  | DispatchOutcome.forwardPublic => some (forwardedHeaders reqHeaders none)
  | _ => none

/-- What the backend call inside `proxy_request` did: returned an HTTP
response, raised httpx.TimeoutException, raised httpx.RequestError, or
raised some other exception. -/
inductive BackendOutcome where
  | response (statusCode : Nat)
  | timeout
  | requestError (msg : String)
  | otherError (msg : String)
deriving DecidableEq

/-- Circuit-breaker bookkeeping performed by one `proxy_request` call. -/
inductive Recording where
  | noRecord
  | success
  | failure
deriving DecidableEq

structure ProxyResult where
  statusCode : Nat
  errorKind : Option String
  attempted : Bool
  recorded : Recording
deriving DecidableEq

/-- `proxy_request` after the service name is resolved: breaker gate, the
backend call, outcome classification (`200 <= status < 500` is recorded as
success, anything else as failure), and the error responses for the
timeout / transport-error / unexpected-fault handlers. -/
def proxyStep (allowed : Bool) (outcome : BackendOutcome) : ProxyResult :=
  if !allowed then
    { statusCode := 503, errorKind := some "service_unavailable",
      attempted := false, recorded := Recording.noRecord }
  else
    match outcome with
    | BackendOutcome.response s =>
        { statusCode := s, errorKind := none, attempted := true,
          recorded := if 200 ≤ s ∧ s < 500 then Recording.success else Recording.failure }
    | BackendOutcome.timeout =>
        { statusCode := 504, errorKind := some "backend_timeout",
          attempted := true, recorded := Recording.failure }
    | BackendOutcome.requestError _ =>
        { statusCode := 502, errorKind := some "backend_error",
          attempted := true, recorded := Recording.failure }
    | BackendOutcome.otherError _ =>
        { statusCode := 500, errorKind := some "proxy_error",
          attempted := true, recorded := Recording.failure }

/-! ## CircuitBreaker (src/gateway/core/circuit_breaker.py)

The per-service `CircuitStats` record is passed explicitly (the source
keeps one per service name in a dict, created on first use via
`_get_or_create_circuit`, and mutates it under a lock).  Timestamps are
rationals standing for `time.time()` floats. -/

inductive CircuitState where
  | CLOSED
  | OPEN
  | HALF_OPEN
deriving DecidableEq

structure CircuitStats where
  state : CircuitState
  failure_count : Nat
  last_failure_time : Option ℚ
  opened_at : Option ℚ
  success_count_in_half_open : Nat
deriving DecidableEq

/-- The dataclass defaults: a freshly created circuit. -/
def initialCircuit : CircuitStats :=
  { state := CircuitState.CLOSED, failure_count := 0,
    last_failure_time := none, opened_at := none,
    success_count_in_half_open := 0 }

structure CircuitBreaker where
  fail_threshold : Nat
  reset_timeout : ℚ
  half_open_max_calls : Nat
  enabled : Bool
deriving DecidableEq

/-- Python truthiness of the optional float `opened_at`: `None` and `0.0`
are both falsy. -/
def truthyTime (o : Option ℚ) : Bool :=
  match o with
  | none => false
  | some t => t ≠ 0

/-- `CircuitBreaker._should_attempt_reset`. -/
def shouldAttemptReset (cb : CircuitBreaker) (c : CircuitStats) (now : ℚ) : Bool :=
  if !truthyTime c.opened_at then false
  else now - c.opened_at.getD 0 ≥ cb.reset_timeout

/-- `CircuitBreaker.is_call_allowed`: the returned Bool plus the mutated
circuit record. -/
def is_call_allowed (cb : CircuitBreaker) (c : CircuitStats) (now : ℚ) :
    Bool × CircuitStats :=
  if !cb.enabled then (true, c)
  else
    match c.state with
    | CircuitState.CLOSED => (true, c)
    | CircuitState.OPEN =>
        if shouldAttemptReset cb c now then
          (true, { c with state := CircuitState.HALF_OPEN,
                          success_count_in_half_open := 0 })
        else
          (false, c)
    | CircuitState.HALF_OPEN => (true, c)

/-- `CircuitBreaker.record_success`. -/
def record_success (cb : CircuitBreaker) (c : CircuitStats) : CircuitStats :=
  if !cb.enabled then c
  else
    match c.state with
    | CircuitState.HALF_OPEN =>
        let c1 := { c with success_count_in_half_open := c.success_count_in_half_open + 1 }
        if c1.success_count_in_half_open ≥ cb.half_open_max_calls then
          { c1 with state := CircuitState.CLOSED, failure_count := 0,
                    success_count_in_half_open := 0 }
        else c1
    | CircuitState.CLOSED =>
        if c.failure_count > 0 then { c with failure_count := 0 } else c
    | CircuitState.OPEN => c

/-- `CircuitBreaker.record_failure` at time `now`. -/
def record_failure (cb : CircuitBreaker) (c : CircuitStats) (now : ℚ) : CircuitStats :=
  if !cb.enabled then c
  else
    let c1 := { c with failure_count := c.failure_count + 1,
                       last_failure_time := some now }
    match c.state with
    | CircuitState.HALF_OPEN =>
        { c1 with state := CircuitState.OPEN, opened_at := some now,
                  success_count_in_half_open := 0 }
    | CircuitState.CLOSED =>
        if c1.failure_count ≥ cb.fail_threshold then
          { c1 with state := CircuitState.OPEN, opened_at := some now }
        else c1
    | CircuitState.OPEN => c1

/-- A sequence of `record_failure` calls at the given times, with no
intervening `record_success`. -/
def applyFailures (cb : CircuitBreaker) (c : CircuitStats) (ts : List ℚ) : CircuitStats :=
  ts.foldl (fun acc t => record_failure cb acc t) c

/-! ## RateLimiter (src/gateway/core/rate_limiter.py) -/

/-- One in-memory fallback bucket (`_memory_buckets[identifier]`). -/
structure Bucket where
  tokens : ℚ
  last_update : ℚ
deriving DecidableEq

/-- `RateLimiter._check_memory` for one identifier: refill from elapsed
time at `requests_per_minute / 60` tokens per second, capped at
`burst_size`; consume one token when at least one is available. -/
def checkMemory (requests_per_minute burst_size : ℚ) (b : Bucket) (now : ℚ) :
    Bool × Bucket :=
  let time_elapsed := now - b.last_update
  let tokens_to_add := time_elapsed * (requests_per_minute / 60)
  let tokens := min burst_size (b.tokens + tokens_to_add)
  if tokens ≥ 1 then
    (true, { tokens := tokens - 1, last_update := now })
  else
    (false, { tokens := tokens, last_update := now })

/-- `n` consecutive `_check_memory` calls at a single instant `now`,
returning how many were allowed and the final bucket. -/
def runCalls (requests_per_minute burst_size now : ℚ) :
    Nat → Bucket → Nat × Bucket
  | 0, b => (0, b)
  | Nat.succ k, b =>
      let r := checkMemory requests_per_minute burst_size b now
      let rest := runCalls requests_per_minute burst_size now k r.2
      ((if r.1 then 1 else 0) + rest.1, rest.2)

/-- Result of `RateLimiter._check_redis`: the allow decision, the header
dict, and whether/with which TTL the store applied an expiry. -/
structure RateCheckResult where
  allowed : Bool
  headers : List (String × String)
  expireAttempted : Bool
  expireSeconds : Option Nat
deriving DecidableEq

/-- `RateLimiter._check_redis`.  `incrResult` is what `RedisClient.incr`
returned: `RedisClient.incr` catches RedisError and returns `None`, so a
store error during the increment surfaces here as `none`; the subsequent
`max(0, limit - None)` raises TypeError, which the surrounding
`except Exception` turns into the fail-open `(True, {})` result.
`expireFails` says whether the `expire` store call errored;
`RedisClient.expire` swallows the error and returns `False`, and
`_check_redis` ignores that return value, so the check proceeds
unchanged. -/
def checkRedis (requests_per_minute now : Nat) (incrResult : Option Nat)
    (expireFails : Bool) : RateCheckResult :=
  match incrResult with
  | none =>
      { allowed := true, headers := [], expireAttempted := false, expireSeconds := none }
  | some current =>
      let att := current == 1
      let remaining := requests_per_minute - current
      { allowed := decide (current ≤ requests_per_minute),
        headers :=
          [("X-RateLimit-Limit", toString requests_per_minute),
           ("X-RateLimit-Remaining", toString remaining),
           ("X-RateLimit-Reset", toString (now + 60))],
        expireAttempted := att,
        expireSeconds := if att && !expireFails then some 60 else none }

/-! ## Claim theorems -/

/-- C1: the claim says every caller-supplied header whose name starts
(case insensitively) with "x-user-" is absent from the forwarded header
set on protected and public paths alike.  Evaluation at a failing input:
on the public path "/health" the middleware forwards immediately, and the
caller header ("x-user-id", "attacker") survives verbatim into the header
set handed to the backend; `strippedHeaderNames` shows the strip helper
merely computed the name for logging. -/
theorem C1_client_user_header_forwarded :
    gatewayForwardHeaders true fallbackAnonymousUser
        (fun _ => ValidateResult.authError "bad") "/health"
        [("x-user-id", "attacker"), ("accept", "*/*")]
      = some [("x-user-id", "attacker"), ("accept", "*/*")] ∧
    strippedHeaderNames [("x-user-id", "attacker"), ("accept", "*/*")]
      = ["x-user-id"] := by
  decide

/-- C5: the claim says a protected-path request with a valid credential
for u1 and a caller-supplied X-User-ID header forwards X-User-ID equal to
u1 and never the caller value, the validator headers overwriting
same-named inbound ones.  Evaluation at a failing input: the inbound key
is the ASGI-lowercased "x-user-id", `dict.update` with the mixed-case
"X-User-ID" key adds a second entry instead of overwriting, and the
forwarded header set carries both the attacker value and the validated
one. -/
theorem C5_attacker_header_survives_next_to_validated :
    gatewayForwardHeaders true fallbackAnonymousUser
        (fun _ => ValidateResult.ok
          { user_id := "u1", email := "u1@example.com", roles := [],
            email_verified := true })
        "/api/v1/cases/1"
        [("authorization", "Bearer tok"), ("x-user-id", "attacker")]
      = some [("authorization", "Bearer tok"), ("x-user-id", "attacker"),
              ("X-User-ID", "u1"), ("X-User-Email", "u1@example.com"),
              ("X-User-Roles", "[]"), ("X-Email-Verified", "true")] := by
  decide

/-- C2 counterexample: the claim says any fault raised inside the
pipeline on a protected path, including the stub provider raising
NotImplementedError, is converted into the InternalError (500) response
and never escapes unhandled.  At this concrete input the middleware
catches only ValueError, so the stub fault escapes `dispatch` uncaught
instead of becoming any response. -/
theorem C2_counterexample_stub_fault_escapes :
    dispatch true fallbackAnonymousUser supabaseValidateToken
        "/api/v1/cases/1" (some "Bearer tok")
      = DispatchOutcome.unhandled
          "Supabase provider is not yet implemented. Use fm-auth-service for now." := by
  decide

/-- C2 amended: on a protected path, a ValueError from `validate_token`
is converted into the 401 invalid_token response, while any other fault
(such as the stub provider raising NotImplementedError) propagates out of
`dispatch` uncaught; the middleware performs no InternalError (500)
conversion. -/
theorem C2_middleware_catches_only_valueerror (ar : Bool) (anon : UserContext)
    (path hdr tok msg : String)
    (hpub : isPublicEndpoint path = false)
    (hhdr : hdr ≠ "")
    (hex : extractBearerToken hdr = Except.ok tok) :
    dispatch ar anon (fun _ => ValidateResult.otherFault msg) path (some hdr)
      = DispatchOutcome.unhandled msg ∧
    dispatch ar anon (fun _ => ValidateResult.authError msg) path (some hdr)
      = DispatchOutcome.response 401 "invalid_token" := by
  unfold dispatch
  simp [hpub, hhdr, hex]

theorem C2_witness :
    dispatch true fallbackAnonymousUser (fun _ => ValidateResult.otherFault "boom")
        "/api/v1/cases/1" (some "Bearer abc")
      = DispatchOutcome.unhandled "boom" ∧
    dispatch true fallbackAnonymousUser (fun _ => ValidateResult.authError "boom")
        "/api/v1/cases/1" (some "Bearer abc")
      = DispatchOutcome.response 401 "invalid_token" :=
  C2_middleware_catches_only_valueerror true fallbackAnonymousUser
    "/api/v1/cases/1" "Bearer abc" "abc" "boom" (by decide) (by decide) rfl

/-- C4: the claim says at most `half_open_max_calls` calls are allowed
while HALF_OPEN.  Evaluation at a failing input (threshold 5, reset
timeout 30, `half_open_max_calls` = 1, circuit OPEN since time 1, calls
at time 31): the first `is_call_allowed` transitions to HALF_OPEN with
the half-open success count reset to 0 and is allowed, and a second call
in HALF_OPEN is also allowed and leaves the record unchanged, so every
further call is allowed as well, exceeding the budget of 1.  The
remaining parts of the claim do hold and are evaluated here too: a
failure in HALF_OPEN reopens the circuit with `opened_at` set to now,
and a success reaching `half_open_max_calls` closes it and zeroes
`failure_count`. -/
theorem C4_half_open_trials_unbounded :
    (is_call_allowed ⟨5, 30, 1, true⟩
        ⟨CircuitState.OPEN, 5, some 1, some 1, 0⟩ 31).1 = true ∧
    (is_call_allowed ⟨5, 30, 1, true⟩
        ⟨CircuitState.OPEN, 5, some 1, some 1, 0⟩ 31).2
      = ⟨CircuitState.HALF_OPEN, 5, some 1, some 1, 0⟩ ∧
    is_call_allowed ⟨5, 30, 1, true⟩
        ⟨CircuitState.HALF_OPEN, 5, some 1, some 1, 0⟩ 31
      = (true, ⟨CircuitState.HALF_OPEN, 5, some 1, some 1, 0⟩) ∧
    record_failure ⟨5, 30, 1, true⟩
        ⟨CircuitState.HALF_OPEN, 5, some 1, some 1, 0⟩ 40
      = ⟨CircuitState.OPEN, 6, some 40, some 40, 0⟩ ∧
    record_success ⟨5, 30, 1, true⟩
        ⟨CircuitState.HALF_OPEN, 5, some 1, some 1, 0⟩
      = ⟨CircuitState.CLOSED, 0, some 1, some 1, 0⟩ := by
  refine ⟨?_, ?_, ?_, ?_, ?_⟩ <;>
    norm_num [is_call_allowed, record_failure, record_success,
      shouldAttemptReset, truthyTime]

/-- C7 counterexample: the claim says the breaker records a success iff
the response status is below 500.  A response with status 100 has status
below 500 yet is recorded as a failure by the forwarder. -/
theorem C7_counterexample_status_100 :
    (proxyStep true (BackendOutcome.response 100)).recorded
      = Recording.failure ∧ 100 < 500 := by
  decide

/-- C7 amended: the forwarder records a success iff the response status
lies in [200, 500); any other status (including those below 200), a
timeout, and a connection failure each record exactly one failure for the
backend. -/
theorem C7_success_iff_status_200_to_499 (s : Nat) (msg : String) :
    ((proxyStep true (BackendOutcome.response s)).recorded = Recording.success
        ↔ (200 ≤ s ∧ s < 500)) ∧
    (proxyStep true BackendOutcome.timeout).recorded = Recording.failure ∧
    (proxyStep true (BackendOutcome.requestError msg)).recorded = Recording.failure ∧
    (proxyStep true (BackendOutcome.otherError msg)).recorded = Recording.failure := by
  refine ⟨?_, rfl, rfl, rfl⟩
  by_cases h : 200 ≤ s ∧ s < 500 <;> simp [proxyStep, h]

/-- C9: when the breaker disallows the call the forwarder answers 503
with the service_unavailable kind, attempts no network call and records
no outcome; a timeout records a failure and yields 504; a transport
error records a failure and yields 502; any other unexpected fault
records a failure and yields 500. -/
theorem C9_forwarder_error_mapping (out : BackendOutcome) (msg : String) :
    proxyStep false out
      = { statusCode := 503, errorKind := some "service_unavailable",
          attempted := false, recorded := Recording.noRecord } ∧
    proxyStep true BackendOutcome.timeout
      = { statusCode := 504, errorKind := some "backend_timeout",
          attempted := true, recorded := Recording.failure } ∧
    proxyStep true (BackendOutcome.requestError msg)
      = { statusCode := 502, errorKind := some "backend_error",
          attempted := true, recorded := Recording.failure } ∧
    proxyStep true (BackendOutcome.otherError msg)
      = { statusCode := 500, errorKind := some "proxy_error",
          attempted := true, recorded := Recording.failure } :=
  ⟨rfl, rfl, rfl, rfl⟩

/-- C8 counterexample: the claim says that if any store operation errors
during the check the request is allowed with empty rate-limit header
info.  With limit 60, a successful increment to 1 and an erroring
`expire` call (no expiry applied), the check still returns the full
header info, not the empty fail-open info; and with limit 0 the same
erroring-expire check even denies the request. -/
theorem C8_counterexample_expire_error_not_fail_open :
    (checkRedis 60 0 (some 1) true).expireSeconds = none ∧
    (checkRedis 60 0 (some 1) true).allowed = true ∧
    (checkRedis 60 0 (some 1) true).headers ≠ [] ∧
    (checkRedis 0 0 (some 1) true).allowed = false := by
  decide

/-- C8 amended: while the store is available, the request is allowed iff
the post-increment counter is at most the per-minute limit, and a
60-second expiry is attempted exactly when the post-increment value is 1;
an error in the increment operation makes the check fail open with empty
header info, while an error in the expire operation is swallowed and
ignored: the allow decision and headers are the same as in the
error-free run (the expiry is simply not applied). -/
theorem C8_fixed_window_semantics (l now cur : Nat) (ef : Bool) :
    checkRedis l now none ef
      = { allowed := true, headers := [], expireAttempted := false,
          expireSeconds := none } ∧
    ((checkRedis l now (some cur) ef).allowed = true ↔ cur ≤ l) ∧
    ((checkRedis l now (some cur) ef).expireAttempted = true ↔ cur = 1) ∧
    ((checkRedis l now (some cur) ef).expireSeconds = some 60
        ↔ (cur = 1 ∧ ef = false)) ∧
    (checkRedis l now (some cur) true).allowed
      = (checkRedis l now (some cur) false).allowed ∧
    (checkRedis l now (some cur) true).headers
      = (checkRedis l now (some cur) false).headers := by
  refine ⟨rfl, ?_, ?_, ?_, rfl, rfl⟩
  · simp [checkRedis]
  · simp [checkRedis]
  · cases ef <;> simp [checkRedis]

/-- A `record_failure` while CLOSED that leaves the counter strictly
below the threshold only bumps the counter and failure time. -/
theorem record_failure_closed_below (cb : CircuitBreaker) (hen : cb.enabled = true)
    (c : CircuitStats) (t : ℚ) (hc : c.state = CircuitState.CLOSED)
    (hlt : c.failure_count + 1 < cb.fail_threshold) :
    record_failure cb c t
      = { c with failure_count := c.failure_count + 1,
                 last_failure_time := some t } := by
  unfold record_failure
  simp [hen, hc]
  omega

/-- A `record_failure` while CLOSED that tops the counter up to the
threshold opens the circuit and stamps `opened_at`. -/
theorem record_failure_closed_reaches (cb : CircuitBreaker) (hen : cb.enabled = true)
    (c : CircuitStats) (t : ℚ) (hc : c.state = CircuitState.CLOSED)
    (hge : cb.fail_threshold ≤ c.failure_count + 1) :
    record_failure cb c t
      = { c with failure_count := c.failure_count + 1,
                 last_failure_time := some t,
                 state := CircuitState.OPEN, opened_at := some t } := by
  unfold record_failure
  simp [hen, hc]
  omega

/-- Driving a CLOSED circuit through a block of consecutive failures
whose length tops the counter up to exactly `fail_threshold` leaves it
OPEN with `opened_at` equal to the time of the final failure. -/
theorem applyFailures_opens (cb : CircuitBreaker) (hen : cb.enabled = true) :
    ∀ (ts : List ℚ) (tlast : ℚ) (c : CircuitStats),
      c.state = CircuitState.CLOSED →
      c.failure_count + ts.length + 1 = cb.fail_threshold →
      (applyFailures cb c (ts ++ [tlast])).state = CircuitState.OPEN ∧
      (applyFailures cb c (ts ++ [tlast])).opened_at = some tlast ∧
      (applyFailures cb c (ts ++ [tlast])).failure_count = cb.fail_threshold := by
  intro ts
  induction ts with
  | nil =>
    intro tlast c hc hsum
    have hge : cb.fail_threshold ≤ c.failure_count + 1 := by
      simp at hsum; omega
    have hstep := record_failure_closed_reaches cb hen c tlast hc hge
    simp only [applyFailures, List.nil_append, List.foldl]
    rw [hstep]
    refine ⟨rfl, rfl, ?_⟩
    simp at hsum ⊢; omega
  | cons t rest ih =>
    intro tlast c hc hsum
    have hlt : c.failure_count + 1 < cb.fail_threshold := by
      simp at hsum; omega
    have hstep := record_failure_closed_below cb hen c t hc hlt
    have hfold : applyFailures cb c ((t :: rest) ++ [tlast])
        = applyFailures cb (record_failure cb c t) (rest ++ [tlast]) := rfl
    rw [hfold, hstep]
    exact ih tlast _ hc (by simp at hsum ⊢; omega)

/-- An enabled breaker rejects a call on an OPEN circuit strictly before
`reset_timeout` has elapsed since `opened_at`, leaving the record
unchanged. -/
theorem open_circuit_rejects (cb : CircuitBreaker) (hen : cb.enabled = true)
    (c : CircuitStats) (now topen : ℚ)
    (hst : c.state = CircuitState.OPEN) (hoa : c.opened_at = some topen)
    (hnow : now < topen + cb.reset_timeout) :
    is_call_allowed cb c now = (false, c) := by
  have hreset : shouldAttemptReset cb c now = false := by
    unfold shouldAttemptReset truthyTime
    rw [hoa]
    by_cases h0 : topen = 0
    · simp [h0]
    · have hlt : ¬ (now - topen ≥ cb.reset_timeout) := by
        push_neg
        linarith
      simp [h0, hlt]
  unfold is_call_allowed
  simp [hen, hst, hreset]

/-- C3: for an enabled breaker, starting from a fresh CLOSED circuit,
after exactly `fail_threshold` consecutive `record_failure` calls with no
intervening `record_success` the circuit is OPEN with `opened_at` the
time of the final failure, and every subsequent `is_call_allowed` call
made strictly before `reset_timeout` seconds have elapsed since the
circuit opened returns false and leaves the record unchanged (so the
rejection persists for the whole window). -/
theorem C3_threshold_opens_circuit (cb : CircuitBreaker) (ts : List ℚ)
    (tlast now : ℚ)
    (hen : cb.enabled = true)
    (hlen : ts.length + 1 = cb.fail_threshold)
    (hnow : now < tlast + cb.reset_timeout) :
    (applyFailures cb initialCircuit (ts ++ [tlast])).state = CircuitState.OPEN ∧
    (applyFailures cb initialCircuit (ts ++ [tlast])).opened_at = some tlast ∧
    is_call_allowed cb (applyFailures cb initialCircuit (ts ++ [tlast])) now
      = (false, applyFailures cb initialCircuit (ts ++ [tlast])) := by
  obtain ⟨hst, hoa, _⟩ :=
    applyFailures_opens cb hen ts tlast initialCircuit rfl
      (by simpa [initialCircuit] using hlen)
  exact ⟨hst, hoa, open_circuit_rejects cb hen _ now tlast hst hoa hnow⟩

theorem C3_witness :
    (applyFailures ⟨2, 30, 1, true⟩ initialCircuit ([1] ++ [2])).state
      = CircuitState.OPEN ∧
    (applyFailures ⟨2, 30, 1, true⟩ initialCircuit ([1] ++ [2])).opened_at
      = some 2 ∧
    is_call_allowed ⟨2, 30, 1, true⟩
        (applyFailures ⟨2, 30, 1, true⟩ initialCircuit ([1] ++ [2])) 10
      = (false, applyFailures ⟨2, 30, 1, true⟩ initialCircuit ([1] ++ [2])) :=
  C3_threshold_opens_circuit ⟨2, 30, 1, true⟩ [1] 2 10 rfl rfl (by norm_num)

/-- C10: every request path that begins with one of the configured
public path strings is classified public and bypasses authentication
entirely: the middleware forwards at once without consulting the
credential or the validator and without attaching identity headers, for
any longer path extending such a string as well. -/
theorem C10_public_path_bypass (p path : String) (ar : Bool)
    (anon : UserContext) (validate : String → ValidateResult)
    (reqHeaders : List (String × String))
    (hp : p ∈ publicPaths) (hpre : strStartsWith path p = true) :
    isPublicEndpoint path = true ∧
    dispatch ar anon validate path (headerGet reqHeaders "Authorization")
      = DispatchOutcome.forwardPublic ∧
    gatewayForwardHeaders ar anon validate path reqHeaders
      = some (forwardedHeaders reqHeaders none) := by
  have hpub : isPublicEndpoint path = true := by
    unfold isPublicEndpoint
    exact List.any_eq_true.mpr ⟨p, hp, hpre⟩
  refine ⟨hpub, ?_, ?_⟩
  · unfold dispatch
    simp [hpub]
  · unfold gatewayForwardHeaders dispatch
    simp [hpub]

theorem C10_witness :
    isPublicEndpoint "/healthz" = true ∧
    dispatch true fallbackAnonymousUser (fun _ => ValidateResult.authError "x")
        "/healthz"
        (headerGet [("authorization", "Bearer bad"), ("x-user-id", "spoof")]
          "Authorization")
      = DispatchOutcome.forwardPublic ∧
    gatewayForwardHeaders true fallbackAnonymousUser
        (fun _ => ValidateResult.authError "x") "/healthz"
        [("authorization", "Bearer bad"), ("x-user-id", "spoof")]
      = some (forwardedHeaders
          [("authorization", "Bearer bad"), ("x-user-id", "spoof")] none) :=
  C10_public_path_bypass "/health" "/healthz" true fallbackAnonymousUser
    (fun _ => ValidateResult.authError "x")
    [("authorization", "Bearer bad"), ("x-user-id", "spoof")]
    (by decide) (by decide)

/-- `_check_memory` at the very instant of the last update (no refill),
for a bucket already capped at `burst_size`: consume one token when at
least one is present, otherwise deny. -/
theorem checkMemory_full_nodelay (limit burst t now : ℚ) (ht : t ≤ burst) :
    checkMemory limit burst { tokens := t, last_update := now } now
      = (if t ≥ 1 then (true, { tokens := t - 1, last_update := now })
         else (false, { tokens := t, last_update := now })) := by
  unfold checkMemory
  simp only
  rw [sub_self, zero_mul, add_zero, min_eq_right ht]

/-- `k` instantaneous `_check_memory` calls against a bucket holding at
least `k` tokens (capped at the burst size) are all allowed and consume
exactly `k` tokens. -/
theorem runCalls_exact (limit burst now : ℚ) :
    ∀ (k : Nat) (t : ℚ), (k : ℚ) ≤ t → t ≤ burst →
      runCalls limit burst now k { tokens := t, last_update := now }
        = (k, { tokens := t - (k : ℚ), last_update := now }) := by
  intro k
  induction k with
  | zero =>
    intro t _ _
    simp [runCalls]
  | succ k ih =>
    intro t hk ht
    have hk1 : (k : ℚ) + 1 ≤ t := by
      push_cast at hk
      linarith
    have h1 : (1 : ℚ) ≤ t := by
      have : (0 : ℚ) ≤ (k : ℚ) := Nat.cast_nonneg k
      linarith
    have hcm := checkMemory_full_nodelay limit burst t now ht
    rw [if_pos (by linarith : t ≥ 1)] at hcm
    have ih2 := ih (t - 1) (by linarith) (by linarith)
    simp only [runCalls, hcm, ih2]
    refine Prod.ext ?_ ?_
    · simp [Nat.add_comm]
    · simp only
      congr 1
      push_cast
      ring

/-- Splitting a block of instantaneous `_check_memory` calls. -/
theorem runCalls_append (limit burst now : ℚ) :
    ∀ (a b : Nat) (bk : Bucket),
      runCalls limit burst now (a + b) bk
        = ((runCalls limit burst now a bk).1
            + (runCalls limit burst now b (runCalls limit burst now a bk).2).1,
           (runCalls limit burst now b (runCalls limit burst now a bk).2).2) := by
  intro a
  induction a with
  | zero =>
    intro b bk
    simp [runCalls]
  | succ a ih =>
    intro b bk
    rw [Nat.succ_add]
    simp only [runCalls, ih]
    refine Prod.ext ?_ ?_
    · simp [Nat.add_assoc]
    · simp

/-- The burst scenario: starting from a fresh bucket holding
`burst_size = n` tokens, `n + 1` instantaneous calls see exactly `n`
allowed (so at least one is denied). -/
theorem runCalls_burst (limit now : ℚ) (n : Nat) :
    (runCalls limit (n : ℚ) now (n + 1)
        { tokens := (n : ℚ), last_update := now }).1 = n := by
  have hex := runCalls_exact limit (n : ℚ) now n (n : ℚ) le_rfl le_rfl
  have hden : runCalls limit (n : ℚ) now 1
      { tokens := 0, last_update := now }
      = (0, { tokens := 0, last_update := now }) := by
    have hcm := checkMemory_full_nodelay limit (n : ℚ) 0 now (Nat.cast_nonneg n)
    rw [if_neg (by norm_num : ¬ ((0 : ℚ) ≥ 1))] at hcm
    simp [runCalls, hcm]
  rw [runCalls_append limit (n : ℚ) now n 1, hex]
  rw [sub_self] at *
  simp only at hden ⊢
  rw [hden]
  simp

/-- After any `_check_memory` call the invariant 0 ≤ tokens ≤ burst_size
is preserved: the refill is capped at the burst size and a token is
consumed only when at least one is available. -/
theorem checkMemory_invariant (limit burst : ℚ) (b : Bucket) (now : ℚ)
    (hl : 0 ≤ limit) (hb : 0 ≤ burst) (h0 : 0 ≤ b.tokens)
    (hm : b.last_update ≤ now) :
    0 ≤ (checkMemory limit burst b now).2.tokens ∧
    (checkMemory limit burst b now).2.tokens ≤ burst := by
  unfold checkMemory
  have hadd : (0 : ℚ) ≤ (now - b.last_update) * (limit / 60) := by
    apply mul_nonneg
    · linarith
    · positivity
  have hT0 : 0 ≤ min burst (b.tokens + (now - b.last_update) * (limit / 60)) :=
    le_min hb (by linarith)
  have hTb : min burst (b.tokens + (now - b.last_update) * (limit / 60)) ≤ burst :=
    min_le_left _ _
  simp only
  by_cases hge : min burst (b.tokens + (now - b.last_update) * (limit / 60)) ≥ 1
  · rw [if_pos hge]
    simp only
    constructor <;> linarith
  · rw [if_neg hge]
    exact ⟨hT0, hTb⟩

/-- C6: for every client identifier, the in-memory fallback bucket stays
within [0, burst_size] across every `_check_memory` call (with
non-negative configuration and time moving forward), and a fresh bucket
holding `burst_size = n` tokens that receives `n + 1` calls with no time
elapsing sees exactly `n` of them allowed — hence at least one denied. -/
theorem C6_memory_bucket_invariant_and_burst (limit burst : ℚ) (b : Bucket)
    (now : ℚ) (n : Nat)
    (hl : 0 ≤ limit) (hb : 0 ≤ burst) (h0 : 0 ≤ b.tokens)
    (hm : b.last_update ≤ now) :
    (0 ≤ (checkMemory limit burst b now).2.tokens ∧
      (checkMemory limit burst b now).2.tokens ≤ burst) ∧
    (runCalls limit (n : ℚ) now (n + 1)
        { tokens := (n : ℚ), last_update := now }).1 = n :=
  ⟨checkMemory_invariant limit burst b now hl hb h0 hm,
   runCalls_burst limit now n⟩

theorem C6_witness :
    ((0 ≤ (checkMemory 60 120 { tokens := 120, last_update := 0 } 0).2.tokens ∧
      (checkMemory 60 120 { tokens := 120, last_update := 0 } 0).2.tokens ≤ 120) ∧
    (runCalls 60 ((2 : Nat) : ℚ) 0 (2 + 1)
        { tokens := ((2 : Nat) : ℚ), last_update := 0 }).1 = 2) :=
  C6_memory_bucket_invariant_and_burst 60 120
    { tokens := 120, last_update := 0 } 0 2
    (by norm_num) (by norm_num) (by norm_num) (by norm_num)
